import Mathlib

/-!
Shallow embedding of `src/libtcod/tileset.c` (tileset management from the
libtcod library): a reference-counted tileset holding a growable pixel arena
of fixed-size tile blocks, a growable codepoint-to-tile charmap, an observer
registry notified on tile writes, and a font-atlas loader that classifies and
normalizes grid cells of a decoded image.

Machine integers from the C source are modelled as `Int` where the sign is
meaningful (codepoints, tile ids, statuses, `ref_count`) and as `Nat` for
sizes and indices.  Allocation is modelled as always succeeding.  The pixel
arena (`pixels` in the C struct) is modelled as a total function from flat
pixel index to color; `memcpy`-style block writes become pointwise function
updates over the written range, and reallocation's zero-fill becomes a
pointwise update over the freshly added range.
-/

/-- RGBA color with 8-bit channels, compared for exact equality on all four
channels (mirrors `struct TCOD_ColorRGBA`). -/
structure ColorRGBA where
  r : Nat
  g : Nat
  b : Nat
  a : Nat
deriving DecidableEq

/-- Fully transparent black, the value the C code zero-fills arena growth
with (`it->r = it->g = it->b = it->a = 0`). -/
def blankPixel : ColorRGBA := ⟨0, 0, 0, 0⟩

/-- One observer node of the tileset's registry.  `id` models the node's
identity (its address in C); `on_tileset_changed` is the optional change
hook (taking the tile id and codepoint, returning a status); the deletion
hook `on_observer_delete` is modelled by whether it is present. -/
structure TCOD_TilesetObserver where
  id : Nat
  on_tileset_changed : Option (Int → Int → Int)
  on_observer_delete : Bool

/-- The tileset state (mirrors `struct TCOD_Tileset`).  `character_map` is a
list of length `character_map_length`; `pixels` is the flat pixel arena,
with tile id `t` occupying indices `[tile_length * t, tile_length * (t+1))`;
`observer_list` holds the registry with the most recently attached observer
at the head. -/
structure TCOD_Tileset where
  tile_width : Nat
  tile_height : Nat
  tile_length : Nat
  virtual_columns : Nat
  tiles_count : Nat
  tiles_capacity : Nat
  pixels : Nat → ColorRGBA
  character_map : List Int
  observer_list : List TCOD_TilesetObserver
  ref_count : Int

/-- Model of `TCOD_tileset_new`: calloc-zeroed tileset with geometry set, one
reference, and `virtual_columns = 1`. -/
def TCOD_tileset_new (tile_width tile_height : Nat) : TCOD_Tileset :=
  { tile_width := tile_width
    tile_height := tile_height
    tile_length := tile_width * tile_height
    virtual_columns := 1
    tiles_count := 0
    tiles_capacity := 0
    pixels := fun _ => blankPixel
    character_map := []
    observer_list := []
    ref_count := 1 }

/-- Observable events of tileset destruction, in the order the C code
produces them: deletion hooks of detached observers, then the frees of the
pixel arena, the charmap and the tileset struct itself. -/
inductive DeleteEvent where
  | hookInvoked (id : Nat)
  | freedPixels
  | freedCharmap
  | freedTileset
deriving DecidableEq

/-- The teardown loop `while (tileset->observer_list) { TCOD_tileset_observer_delete(tileset->observer_list); }`:
each iteration unlinks the head observer (the scan in `observer_delete`
matches the head node immediately) and invokes its deletion hook when
present. -/
def teardownEvents : List TCOD_TilesetObserver → List DeleteEvent
  | [] => []
  | o :: rest =>
    (if o.on_observer_delete then [DeleteEvent.hookInvoked o.id] else [])
      ++ teardownEvents rest

/-- Model of `TCOD_tileset_delete`: decrement `ref_count`; while it remains nonzero
nothing else happens and the tileset survives unchanged.  At zero, all
observers are detached (deletion hooks firing) and then the pixel arena,
charmap and struct are freed; `none` models the freed tileset. -/
def TCOD_tileset_delete (t : TCOD_Tileset) :
    Option TCOD_Tileset × List DeleteEvent :=
  if t.ref_count - 1 ≠ 0 then (some { t with ref_count := t.ref_count - 1 }, [])
  else
    (none, teardownEvents t.observer_list
      ++ [DeleteEvent.freedPixels, DeleteEvent.freedCharmap,
          DeleteEvent.freedTileset])

/-- Model of `TCOD_tileset_observer_new`: the new observer node is linked at the head
of the registry.  The caller-visible node configuration (hooks) is passed in
as `o`, since in C the caller fills the calloc-zeroed node after attach. -/
def TCOD_tileset_observer_new (t : TCOD_Tileset) (o : TCOD_TilesetObserver) :
    TCOD_Tileset :=
  { t with observer_list := o :: t.observer_list }

/-- The unlink scan of `TCOD_tileset_observer_delete`: remove the first node
whose identity matches, emitting its deletion-hook event when the hook is
present. -/
def removeObserver (l : List TCOD_TilesetObserver) (oid : Nat) :
    List TCOD_TilesetObserver × List DeleteEvent :=
  match l with
  | [] => ([], [])
  | o :: rest =>
    if o.id = oid then
      (rest, if o.on_observer_delete then [DeleteEvent.hookInvoked o.id] else [])
    else
      let r := removeObserver rest oid
      (o :: r.1, r.2)

/-- Model of `TCOD_tileset_observer_delete`: detach the observer with identity `oid`
from the registry, invoking its deletion hook exactly once when present. -/
def TCOD_tileset_observer_delete (t : TCOD_Tileset) (oid : Nat) :
    TCOD_Tileset × List DeleteEvent :=
  let r := removeObserver t.observer_list oid
  ({ t with observer_list := r.1 }, r.2)

/-- Model of `TCOD_tileset_get_charmap`: `-1` for a null tileset is not modelled (the
tileset is a value here); `-1` for an out-of-range or negative codepoint,
otherwise the stored entry. -/
def TCOD_tileset_get_charmap (t : TCOD_Tileset) (codepoint : Int) : Int :=
  if codepoint < 0 then -1
  else if (t.character_map.length : Int) ≤ codepoint then -1
  else t.character_map.getD codepoint.toNat 0

/-- The doubling loop `while (codepoint >= new_length) { new_length *= 2; }`
of `TCOD_tileset_assign_charmap`, with a structural fuel argument so the
definition reduces; `charmapGrowLength_lt` shows fuel `codepoint + 1` always
suffices when the starting length is positive. -/
def charmapGrowLength (codepoint : Nat) : Nat → Nat → Nat
  | 0, len => len
  | fuel + 1, len =>
    if codepoint < len then len else charmapGrowLength codepoint fuel (len * 2)

/-- Charmap growth of `TCOD_tileset_assign_charmap`: when the codepoint is
out of range, double the length (starting from `DEFAULT_CHARMAP_LENGTH =
256` when empty) until it covers the codepoint, zero-filling the new
slots. -/
def charmapGrown (m : List Int) (cp : Nat) : List Int :=
  if cp < m.length then m
  else
    let len0 := if m.length = 0 then 256 else m.length
    let new_length := charmapGrowLength cp (cp + 1) len0
    m ++ List.replicate (new_length - m.length) 0

/-- Model of `TCOD_tileset_assign_charmap`: validate the tile id against
`[0, tiles_count)` and the codepoint against `0 ≤ codepoint`, grow the
charmap if needed, store the mapping and return the tile id. -/
def TCOD_tileset_assign_charmap (t : TCOD_Tileset) (codepoint tile_id : Int) :
    Int × TCOD_Tileset :=
  if tile_id < 0 ∨ (t.tiles_count : Int) ≤ tile_id then (-1, t)
  else if codepoint < 0 then (-1, t)
  else
    (tile_id,
      { t with character_map := List.set (charmapGrown t.character_map codepoint.toNat) codepoint.toNat tile_id })

/-- The arena growth step of `TCOD_tileset_generate_charmap`: when full,
double `tiles_capacity` (from `DEFAULT_TILES_LENGTH = 256` when zero) and
zero-fill the freshly added pixel range. -/
def arenaGrown (t : TCOD_Tileset) : TCOD_Tileset :=
  if t.tiles_count = t.tiles_capacity then
    let new_capacity := if t.tiles_capacity = 0 then 256 else t.tiles_capacity * 2
    { t with
      tiles_capacity := new_capacity
      pixels := fun i =>
        if t.tiles_capacity * t.tile_length ≤ i ∧
            i < new_capacity * t.tile_length
        then blankPixel else t.pixels i }
  else t

/-- Model of `TCOD_tileset_generate_charmap`: a strictly positive existing mapping is
returned unchanged; a mapping of `0` (or a failed lookup) allocates a fresh
tile id — grow the arena if full, force `tiles_count` to at least 1 so tile
id 0 stays blank, take `tile_id = tiles_count++`, and store the mapping via
`TCOD_tileset_assign_charmap`. -/
def TCOD_tileset_generate_charmap (t : TCOD_Tileset) (codepoint : Int) :
    Int × TCOD_Tileset :=
  let tile_id := TCOD_tileset_get_charmap t codepoint
  if 0 < tile_id then (tile_id, t)
  else
    let t1 := arenaGrown t
    let t2 := if t1.tiles_count = 0 then { t1 with tiles_count := 1 } else t1
    TCOD_tileset_assign_charmap { t2 with tiles_count := t2.tiles_count + 1 }
      codepoint (t2.tiles_count : Int)

/-- The `tile_length`-pixel block of tile id `tile_id`, read from the arena
at offset `tile_length * tile_id` (mirrors
`tileset->pixels + tileset->tile_length * tile_id`). -/
def readBlock (t : TCOD_Tileset) (tile_id : Nat) : List ColorRGBA :=
  (List.range t.tile_length).map fun j => t.pixels (t.tile_length * tile_id + j)

/-- The `memcpy(tile, buffer, sizeof(tile[0]) * tile_length)` of
`TCOD_tileset_set_tile_`: overwrite the block of `tile_id` with the first
`tile_length` pixels of `buffer`. -/
def writeBlock (t : TCOD_Tileset) (tile_id : Nat) (buffer : Nat → ColorRGBA) :
    TCOD_Tileset :=
  { t with pixels := fun i =>
      if t.tile_length * tile_id ≤ i ∧ i < t.tile_length * tile_id + t.tile_length
      then buffer (i - t.tile_length * tile_id) else t.pixels i }

/-- Model of `TCOD_tileset_get_tile_`: resolve the codepoint through the charmap; a
negative resolution reports `-1` with no copy, otherwise status `0` and the
copied block (a null output buffer in C skips only the copy, not the
status). -/
def TCOD_tileset_get_tile_ (t : TCOD_Tileset) (codepoint : Int) :
    Int × Option (List ColorRGBA) :=
  let tile_id := TCOD_tileset_get_charmap t codepoint
  if tile_id < 0 then (-1, none)
  else (0, some (readBlock t tile_id.toNat))

/-- The notification loop of `TCOD_tileset_set_tile_`: walk the registry in
order, skip observers without a change hook, invoke each hook, and stop at
the first nonzero status, which becomes the overall status.  Also returns
the identities of the observers whose hooks were invoked, in invocation
order. -/
def notifyObservers (obs : List TCOD_TilesetObserver) (tile_id codepoint : Int) :
    Int × List Nat :=
  match obs with
  | [] => (0, [])
  | o :: rest =>
    match o.on_tileset_changed with
    | none => notifyObservers rest tile_id codepoint
    | some f =>
      let err := f tile_id codepoint
      if err = 0 then
        let r := notifyObservers rest tile_id codepoint
        (r.1, o.id :: r.2)
      else (err, [o.id])

/-- Lines 192-195 of `TCOD_tileset_set_tile_`: look the codepoint up in the
charmap and fall back to `TCOD_tileset_generate_charmap` only when that
lookup is negative. -/
def tileResolve (t : TCOD_Tileset) (codepoint : Int) : Int × TCOD_Tileset :=
  let tile_id := TCOD_tileset_get_charmap t codepoint
  if tile_id < 0 then TCOD_tileset_generate_charmap t codepoint
  else (tile_id, t)

/-- Model of `TCOD_tileset_set_tile_`: resolve (possibly generating a mapping), abort
on a negative tile id, otherwise overwrite the tile's block and notify the
observers; the status is the first nonzero hook status, else `0`.  Returns
the status, the resulting tileset, and the invoked observer identities. -/
def TCOD_tileset_set_tile_ (t : TCOD_Tileset) (codepoint : Int)
    (buffer : Nat → ColorRGBA) : Int × TCOD_Tileset × List Nat :=
  let r := tileResolve t codepoint
  if r.1 < 0 then (r.1, r.2, [])
  else
    let t2 := writeBlock r.2 r.1.toNat buffer
    let n := notifyObservers t2.observer_list r.1 codepoint
    (n.1, t2, n.2)

/-- The `has_color` analysis of one atlas cell in `TCOD_tileset_load`: some
pixel of the cell has differing R/G/B channels.  `font_i` is the flat index
of the cell's top-left pixel in the decoded image. -/
def cellHasColor (font : Nat → ColorRGBA) (font_i font_width tw th : Nat) :
    Bool :=
  (List.range th).any fun y => (List.range tw).any fun x =>
    let p := font (font_i + y * font_width + x)
    (p.r != p.g) || (p.r != p.b)

/-- The `has_alpha` analysis of one atlas cell in `TCOD_tileset_load`: some
pixel of the cell is not fully opaque. -/
def cellHasAlpha (font : Nat → ColorRGBA) (font_i font_width tw th : Nat) :
    Bool :=
  (List.range th).any fun y => (List.range tw).any fun x =>
    (font (font_i + y * font_width + x)).a != 255

/-- The grayscale-to-white-with-alpha remap of `TCOD_tileset_load`:
`pixel.a = pixel.r; pixel.r = pixel.g = pixel.b = 0xff`. -/
def grayToAlpha (p : ColorRGBA) : ColorRGBA := ⟨255, 255, 255, p.r⟩

/-- The key-substitution step of `TCOD_tileset_load`: a pixel exactly equal
to the color key (on all four channels) becomes fully transparent black.
The pixel compared here is the one already produced by the preceding
normalization step. -/
def applyColorKey (key : Option ColorRGBA) (p : ColorRGBA) : ColorRGBA :=
  match key with
  | some k => if p = k then ⟨0, 0, 0, 0⟩ else p
  | none => p

/-- The per-pixel body of the normalize-and-copy loop of
`TCOD_tileset_load`: grayscale remap when the cell had neither color nor
alpha, then key substitution on the resulting pixel. -/
def normalizeCellPixel (has_color has_alpha : Bool) (key : Option ColorRGBA)
    (p : ColorRGBA) : ColorRGBA :=
  applyColorKey key (if !has_color && !has_alpha then grayToAlpha p else p)

/-- Color-key detection of `TCOD_tileset_load`: the key is the pixel value
of the image origin, retained only when every pixel of grid cell 0 equals
it. -/
def detectColorKey (font : Nat → ColorRGBA) (font_width tw th : Nat) :
    Option ColorRGBA :=
  if (List.range th).all (fun y => (List.range tw).all fun x =>
      font (y * font_width + x) = font 0)
  then some (font 0) else none

/-- Flat index in the decoded image of the top-left pixel of grid cell `i`
(`font_y * font_width + font_x` in `TCOD_tileset_load`). -/
def cellFontIndex (i columns tw th font_width : Nat) : Nat :=
  i / columns * th * font_width + i % columns * tw

/-- The pixel arena produced by the cell-copy loops of `TCOD_tileset_load`,
described pointwise: the loops write index `i * tile_length + y * tw + x`
with the normalized pixel of cell `i` at cell coordinates `(x, y)`, and for
positive geometry every arena index below `font_tiles * tile_length` is
written exactly once, so the arena contents are recovered here by dividing
the flat index back into cell, row and column. -/
def loadPixels (font : Nat → ColorRGBA) (font_width columns tw th : Nat)
    (key : Option ColorRGBA) : Nat → ColorRGBA :=
  fun idx =>
    let tile_length := tw * th
    let i := idx / tile_length
    let rem := idx % tile_length
    let y := rem / tw
    let x := rem % tw
    let font_i := cellFontIndex i columns tw th font_width
    normalizeCellPixel (cellHasColor font font_i font_width tw th)
      (cellHasAlpha font font_i font_width tw th) key
      (font (font_i + y * font_width + x))

/-- The final assignment loop of `TCOD_tileset_load`: for each remaining
index `i`, assign codepoint `charmap[i]` (or `i` itself when no explicit
list was supplied) to tile id `i`, aborting the whole load on any
failure. -/
def loadAssignLoop (charmap : Option (List Int)) :
    TCOD_Tileset → List Nat → Option TCOD_Tileset
  | t, [] => some t
  | t, i :: rest =>
    let codepoint : Int :=
      match charmap with
      | some l => l.getD i 0
      | none => (i : Int)
    let r := TCOD_tileset_assign_charmap t codepoint (i : Int)
    if r.1 < 0 then none else loadAssignLoop charmap r.2 rest

/-- Model of `TCOD_tileset_load` after the external image decode: `font` with
dimensions `font_width × font_height` is the decoded RGBA buffer.  Build a
tileset with geometry `font_width / columns × font_height / rows`, set both
`tiles_count` and `tiles_capacity` to `columns * rows` directly, fill the
arena through color-key detection, per-cell classification, normalization
and key substitution, then run the charmap assignment loop (`n` is ignored
and replaced by the cell count when no explicit codepoint list is given). -/
def TCOD_tileset_load (font : Nat → ColorRGBA)
    (font_width font_height columns rows n : Nat)
    (charmap : Option (List Int)) : Option TCOD_Tileset :=
  let font_tiles := columns * rows
  let tw := font_width / columns
  let th := font_height / rows
  let key := detectColorKey font font_width tw th
  let t0 := { TCOD_tileset_new tw th with
    virtual_columns := columns
    tiles_count := font_tiles
    tiles_capacity := font_tiles
    pixels := loadPixels font font_width columns tw th key }
  let count := if charmap = none then font_tiles else n
  loadAssignLoop charmap t0 (List.range count)

/-! Concrete states used to exercise the operations on explicit inputs. -/

/-- Constant opaque gray buffer (every pixel `{128,128,128,255}`). -/
def grayBuffer : Nat → ColorRGBA := fun _ => ⟨128, 128, 128, 255⟩

/-- Example state: a fresh 1×1 tileset after writing codepoint 5; the write
generates tile id 1 (tile id 0 stays blank) and maps 5 to it, leaving
`tiles_count = 2`. -/
def exampleT1 : TCOD_Tileset :=
  (TCOD_tileset_set_tile_ (TCOD_tileset_new 1 1) 5 (fun _ => ⟨1, 1, 1, 1⟩)).2.1

/-- Example state: `exampleT1` after explicitly assigning codepoint 3 to the
blank tile id 0. -/
def exampleT2 : TCOD_Tileset := (TCOD_tileset_assign_charmap exampleT1 3 0).2

/-- Example state: `exampleT2` after writing codepoint 3 through
`TCOD_tileset_set_tile_`. -/
def exampleT3 : TCOD_Tileset :=
  (TCOD_tileset_set_tile_ exampleT2 3 (fun _ => ⟨9, 9, 9, 9⟩)).2.1

/-- Uniform opaque gray image: every cell is uniform `{128,128,128,255}`, so
cell 0 yields that value as the color key, and every cell is classified as
grayscale and fully opaque. -/
def uniformGrayFont : Nat → ColorRGBA := fun _ => ⟨128, 128, 128, 255⟩

/-- Uniform colored image: every pixel `{1,2,3,255}` (has color, so no
grayscale remap; cell 0 uniform, so it is the color key). -/
def smallColorFont : Nat → ColorRGBA := fun _ => ⟨1, 2, 3, 255⟩

/-- Example state: a 1×1 tileset with three tiles and a two-entry charmap
mapping codepoint 0 to tile 7 and codepoint 1 to tile 4. -/
def exampleT4 : TCOD_Tileset :=
  { TCOD_tileset_new 1 1 with tiles_count := 3, character_map := [7, 4] }

/-- Example state: a 1×1 tileset with one tile and a charmap mapping
codepoint 1 to tile 2. -/
def exampleT5 : TCOD_Tileset :=
  { TCOD_tileset_new 1 1 with tiles_count := 1, character_map := [9, 2] }

/-- Example state: a 1×1 tileset with two references and two attached
observers, the more recently attached of which has a deletion hook. -/
def exampleT6 : TCOD_Tileset :=
  { TCOD_tileset_new 1 1 with
    ref_count := 2
    observer_list := [⟨1, none, true⟩, ⟨2, none, false⟩] }

/-! Helper lemmas about list indexing with a default, used to reason about
the charmap. -/

lemma getD_append_left (l l2 : List Int) (n : Nat) (h : n < l.length) :
    (l ++ l2).getD n 0 = l.getD n 0 := by
  induction l generalizing n with
  | nil => simp at h
  | cons a l ih =>
    cases n with
    | zero => simp
    | succ n => simpa using ih n (by simpa using h)

lemma getD_append_replicate_zero (l : List Int) (k n : Nat) (h : l.length ≤ n) :
    (l ++ List.replicate k (0 : Int)).getD n 0 = 0 := by
  induction l generalizing n with
  | nil =>
    simp only [List.nil_append]
    induction k generalizing n with
    | zero => simp
    | succ k ih =>
      cases n with
      | zero => simp
      | succ n => simp
  | cons a l ih =>
    cases n with
    | zero => simp at h
    | succ n => simpa using ih n (by simpa using h)

lemma getD_set_ne (l : List Int) (v : Int) (i j : Nat) (h : i ≠ j) :
    (l.set i v).getD j 0 = l.getD j 0 := by
  induction l generalizing i j with
  | nil => simp
  | cons a l ih =>
    cases i with
    | zero =>
      cases j with
      | zero => exact absurd rfl h
      | succ j => simp
    | succ i =>
      cases j with
      | zero => simp
      | succ j => simpa using ih i j (by omega)

lemma getD_set_self (l : List Int) (v : Int) (i : Nat) (h : i < l.length) :
    (l.set i v).getD i 0 = v := by
  induction l generalizing i with
  | nil => simp at h
  | cons a l ih =>
    cases i with
    | zero => simp
    | succ i => simpa using ih i (by simpa using h)

/-! Lemmas about the charmap growth computation. -/

lemma charmapGrowLength_ge (cp : Nat) :
    ∀ fuel len, len ≤ charmapGrowLength cp fuel len := by
  intro fuel
  induction fuel with
  | zero => intro len; simp [charmapGrowLength]
  | succ fuel ih =>
    intro len
    simp only [charmapGrowLength]
    split
    · exact le_refl _
    · exact le_trans (by omega) (ih (len * 2))

lemma charmapGrowLength_lt (cp : Nat) :
    ∀ fuel len, 1 ≤ len → cp < len * 2 ^ fuel →
      cp < charmapGrowLength cp fuel len := by
  intro fuel
  induction fuel with
  | zero =>
    intro len _ h2
    simpa [charmapGrowLength] using h2
  | succ fuel ih =>
    intro len h1 h2
    simp only [charmapGrowLength]
    split
    · assumption
    · apply ih (len * 2) (by omega)
      calc cp < len * 2 ^ (fuel + 1) := h2
        _ = len * 2 * 2 ^ fuel := by ring

lemma charmapGrown_length_ge (m : List Int) (cp : Nat) :
    m.length ≤ (charmapGrown m cp).length := by
  unfold charmapGrown
  split
  · exact le_refl _
  · simp

lemma charmapGrown_lt_length (m : List Int) (cp : Nat) :
    cp < (charmapGrown m cp).length := by
  unfold charmapGrown
  split
  · assumption
  · rename_i h
    simp only [List.length_append, List.length_replicate]
    have h1 : 1 ≤ (if m.length = 0 then 256 else m.length) := by
      split <;> omega
    have h2 : cp < (if m.length = 0 then 256 else m.length) * 2 ^ (cp + 1) := by
      have hp : cp < 2 ^ cp := Nat.lt_two_pow cp
      have hp2 : 2 ^ cp ≤ 2 ^ (cp + 1) := Nat.pow_le_pow_right (by omega) (by omega)
      have hp3 : 2 ^ (cp + 1) ≤ (if m.length = 0 then 256 else m.length) * 2 ^ (cp + 1) :=
        Nat.le_mul_of_pos_left _ h1
      omega
    have hlt := charmapGrowLength_lt cp (cp + 1) _ h1 h2
    have hge := charmapGrowLength_ge cp (cp + 1) (if m.length = 0 then 256 else m.length)
    have hge2 : m.length ≤ charmapGrowLength cp (cp + 1)
        (if m.length = 0 then 256 else m.length) := by
      rcases Nat.eq_zero_or_pos m.length with h0 | h0
      · omega
      · have : (if m.length = 0 then 256 else m.length) = m.length := by
          split <;> omega
        omega
    omega

lemma charmapGrown_getD_lt (m : List Int) (cp i : Nat) (h : i < m.length) :
    (charmapGrown m cp).getD i 0 = m.getD i 0 := by
  unfold charmapGrown
  split
  · rfl
  · exact getD_append_left _ _ _ h

lemma charmapGrown_getD_new (m : List Int) (cp i : Nat) (h : m.length ≤ i)
    (hcp : ¬ cp < m.length) :
    (charmapGrown m cp).getD i 0 = 0 := by
  unfold charmapGrown
  split
  · omega
  · exact getD_append_replicate_zero _ _ _ h

/-! Lemmas about the charmap operations. -/

lemma get_charmap_eq (t : TCOD_Tileset) (c : Int) (hc : 0 ≤ c)
    (hlt : c < (t.character_map.length : Int)) :
    TCOD_tileset_get_charmap t c = t.character_map.getD c.toNat 0 := by
  unfold TCOD_tileset_get_charmap
  rw [if_neg (by omega), if_neg (by omega)]

lemma get_charmap_inrange (t : TCOD_Tileset) (c tid : Int)
    (h : TCOD_tileset_get_charmap t c = tid) (h0 : 0 ≤ tid) :
    0 ≤ c ∧ c < (t.character_map.length : Int) ∧
      t.character_map.getD c.toNat 0 = tid := by
  unfold TCOD_tileset_get_charmap at h
  by_cases h1 : c < 0
  · rw [if_pos h1] at h; omega
  · rw [if_neg h1] at h
    by_cases h2 : (t.character_map.length : Int) ≤ c
    · rw [if_pos h2] at h; omega
    · rw [if_neg h2] at h; exact ⟨by omega, by omega, h⟩

lemma assign_preserve (t : TCOD_Tileset) (c tid : Int) :
    (TCOD_tileset_assign_charmap t c tid).2.pixels = t.pixels ∧
    (TCOD_tileset_assign_charmap t c tid).2.tiles_count = t.tiles_count ∧
    (TCOD_tileset_assign_charmap t c tid).2.tiles_capacity = t.tiles_capacity ∧
    (TCOD_tileset_assign_charmap t c tid).2.tile_length = t.tile_length ∧
    (TCOD_tileset_assign_charmap t c tid).2.observer_list = t.observer_list := by
  unfold TCOD_tileset_assign_charmap
  split
  · exact ⟨rfl, rfl, rfl, rfl, rfl⟩
  · split
    · exact ⟨rfl, rfl, rfl, rfl, rfl⟩
    · exact ⟨rfl, rfl, rfl, rfl, rfl⟩

lemma assign_success (t : TCOD_Tileset) (c tid : Int) (hc : 0 ≤ c) (h0 : 0 ≤ tid)
    (h1 : tid < (t.tiles_count : Int)) :
    (TCOD_tileset_assign_charmap t c tid).1 = tid ∧
    TCOD_tileset_get_charmap (TCOD_tileset_assign_charmap t c tid).2 c = tid := by
  unfold TCOD_tileset_assign_charmap
  rw [if_neg (by omega), if_neg (by omega)]
  refine ⟨rfl, ?_⟩
  have hlen : c.toNat <
      ((charmapGrown t.character_map c.toNat).set c.toNat tid).length := by
    rw [List.length_set]; exact charmapGrown_lt_length _ _
  unfold TCOD_tileset_get_charmap
  simp only
  rw [if_neg (by omega), if_neg (by omega)]
  exact getD_set_self _ _ _ (by rw [List.length_set] at hlen; exact hlen)

lemma assign_other (t : TCOD_Tileset) (c c2 tid tid2 : Int)
    (h : TCOD_tileset_get_charmap t c = tid) (h0 : 0 ≤ tid) (hne : c2 ≠ c) :
    TCOD_tileset_get_charmap (TCOD_tileset_assign_charmap t c2 tid2).2 c = tid := by
  obtain ⟨hc, hlt, hgd⟩ := get_charmap_inrange t c tid h h0
  unfold TCOD_tileset_assign_charmap
  split
  · exact h
  · split
    · exact h
    · rename_i hv hc2
      have hlen : c.toNat <
          ((charmapGrown t.character_map c2.toNat).set c2.toNat tid2).length := by
        rw [List.length_set]
        have := charmapGrown_length_ge t.character_map c2.toNat
        omega
      unfold TCOD_tileset_get_charmap
      simp only
      rw [if_neg (by omega), if_neg (by omega)]
      rw [getD_set_ne _ _ _ _ (by omega)]
      rw [charmapGrown_getD_lt _ _ _ (by omega)]
      exact hgd

/-! Lemmas about arena growth and tile generation. -/

lemma arenaGrown_preserve (t : TCOD_Tileset) :
    (arenaGrown t).tiles_count = t.tiles_count ∧
    (arenaGrown t).tile_length = t.tile_length ∧
    (arenaGrown t).character_map = t.character_map ∧
    (arenaGrown t).observer_list = t.observer_list := by
  unfold arenaGrown
  split
  · exact ⟨rfl, rfl, rfl, rfl⟩
  · exact ⟨rfl, rfl, rfl, rfl⟩

lemma generate_neg (t : TCOD_Tileset) (c : Int) (hc : c < 0) :
    (TCOD_tileset_generate_charmap t c).1 = -1 := by
  unfold TCOD_tileset_generate_charmap
  have hg : TCOD_tileset_get_charmap t c = -1 := by
    unfold TCOD_tileset_get_charmap; rw [if_pos hc]
  rw [hg, if_neg (by omega)]
  unfold TCOD_tileset_assign_charmap
  simp only
  rw [if_neg (by simp), if_pos hc]

lemma generate_success (t : TCOD_Tileset) (c : Int) (hc : 0 ≤ c)
    (hm : TCOD_tileset_get_charmap t c ≤ 0) :
    (TCOD_tileset_generate_charmap t c).1
        = ((if t.tiles_count = 0 then 1 else t.tiles_count : Nat) : Int) ∧
    (TCOD_tileset_generate_charmap t c).2.tiles_count
        = (if t.tiles_count = 0 then 1 else t.tiles_count) + 1 ∧
    TCOD_tileset_get_charmap (TCOD_tileset_generate_charmap t c).2 c
        = ((if t.tiles_count = 0 then 1 else t.tiles_count : Nat) : Int) ∧
    (TCOD_tileset_generate_charmap t c).2.tile_length = t.tile_length ∧
    (TCOD_tileset_generate_charmap t c).2.observer_list = t.observer_list ∧
    (TCOD_tileset_generate_charmap t c).2.pixels = (arenaGrown t).pixels ∧
    (TCOD_tileset_generate_charmap t c).2.tiles_capacity
        = (arenaGrown t).tiles_capacity := by
  unfold TCOD_tileset_generate_charmap
  rw [if_neg (by omega)]
  obtain ⟨ha1, ha2, ha3, ha4⟩ := arenaGrown_preserve t
  set t1 := arenaGrown t with ht1
  set t2 : TCOD_Tileset :=
    if t1.tiles_count = 0 then { t1 with tiles_count := 1 } else t1 with ht2
  have hcount : t2.tiles_count = if t.tiles_count = 0 then 1 else t.tiles_count := by
    rw [ht2]
    split
    · simp only
      rename_i hz
      rw [ha1] at hz
      rw [if_pos hz]
    · rename_i hz
      rw [ha1] at hz
      rw [if_neg hz]
      exact ha1
  have hobs2 : t2.observer_list = t.observer_list := by
    rw [ht2]; split <;> simpa using ha4
  have hlen2 : t2.tile_length = t.tile_length := by
    rw [ht2]; split <;> simpa using ha2
  have hpix2 : t2.pixels = t1.pixels := by
    rw [ht2]; split <;> rfl
  have hcap2 : t2.tiles_capacity = t1.tiles_capacity := by
    rw [ht2]; split <;> rfl
  set t3 : TCOD_Tileset := { t2 with tiles_count := t2.tiles_count + 1 } with ht3
  obtain ⟨hp1, hp2, hp3, hp4, hp5⟩ :=
    assign_preserve t3 c (t2.tiles_count : Int)
  obtain ⟨hs1, hs2⟩ := assign_success t3 c (t2.tiles_count : Int) hc (by omega)
    (by rw [ht3]; simp)
  refine ⟨by rw [hs1, hcount], ?_, by rw [hs2, hcount], ?_, ?_, ?_, ?_⟩
  · rw [hp2, ht3]; simp only; omega
  · rw [hp4, ht3]; simpa using hlen2
  · rw [hp5, ht3]; simpa using hobs2
  · rw [hp1, ht3]; simpa using hpix2
  · rw [hp3, ht3]; simpa using hcap2

/-! Lemmas about block reads and writes on the pixel arena, and about the
resolve-then-write structure of `TCOD_tileset_set_tile_`. -/

lemma writeBlock_preserve (t : TCOD_Tileset) (n : Nat) (buf : Nat → ColorRGBA) :
    (writeBlock t n buf).character_map = t.character_map ∧
    (writeBlock t n buf).observer_list = t.observer_list ∧
    (writeBlock t n buf).tile_length = t.tile_length ∧
    (writeBlock t n buf).tiles_count = t.tiles_count ∧
    (writeBlock t n buf).tiles_capacity = t.tiles_capacity :=
  ⟨rfl, rfl, rfl, rfl, rfl⟩

lemma get_charmap_writeBlock (t : TCOD_Tileset) (n : Nat)
    (buf : Nat → ColorRGBA) (c : Int) :
    TCOD_tileset_get_charmap (writeBlock t n buf) c
      = TCOD_tileset_get_charmap t c := rfl

lemma readBlock_writeBlock (t : TCOD_Tileset) (n : Nat) (buf : Nat → ColorRGBA) :
    readBlock (writeBlock t n buf) n = (List.range t.tile_length).map buf := by
  unfold readBlock writeBlock
  simp only
  refine List.map_congr_left ?_
  intro j hj
  rw [List.mem_range] at hj
  rw [if_pos ⟨Nat.le_add_right _ _, by omega⟩]
  congr 1
  omega

lemma resolve_nonneg (t : TCOD_Tileset) (c : Int) (hc : 0 ≤ c) :
    0 ≤ (tileResolve t c).1 := by
  simp only [tileResolve]
  split
  · rename_i h
    have := generate_success t c hc (by omega)
    omega
  · omega

lemma resolve_spec (t : TCOD_Tileset) (c : Int)
    (h : 0 ≤ (tileResolve t c).1) :
    TCOD_tileset_get_charmap (tileResolve t c).2 c = (tileResolve t c).1 ∧
    (tileResolve t c).2.tile_length = t.tile_length ∧
    (tileResolve t c).2.observer_list = t.observer_list := by
  have hc : 0 ≤ c := by
    by_contra hneg
    have h1 : TCOD_tileset_get_charmap t c = -1 := by
      unfold TCOD_tileset_get_charmap; rw [if_pos (by omega)]
    have h2 : (tileResolve t c).1 = -1 := by
      simp only [tileResolve]
      rw [h1, if_pos (by omega)]
      exact generate_neg t c (by omega)
    omega
  simp only [tileResolve] at h ⊢
  split
  · rename_i hlt
    obtain ⟨hg1, _, hg3, hg4, hg5, _, _⟩ := generate_success t c hc (by omega)
    exact ⟨by rw [hg3, hg1], hg4, hg5⟩
  · rename_i hlt
    exact ⟨rfl, rfl, rfl⟩

lemma setTile_spec (t : TCOD_Tileset) (c : Int) (buf : Nat → ColorRGBA)
    (h : 0 ≤ (tileResolve t c).1) :
    (TCOD_tileset_set_tile_ t c buf).2.1
        = writeBlock (tileResolve t c).2 (tileResolve t c).1.toNat buf ∧
    (TCOD_tileset_set_tile_ t c buf).1
        = (notifyObservers t.observer_list (tileResolve t c).1 c).1 ∧
    (TCOD_tileset_set_tile_ t c buf).2.2
        = (notifyObservers t.observer_list (tileResolve t c).1 c).2 := by
  obtain ⟨_, _, hobs⟩ := resolve_spec t c h
  simp only [TCOD_tileset_set_tile_]
  rw [if_neg (by omega)]
  refine ⟨rfl, ?_, ?_⟩
  · simp only
    rw [(writeBlock_preserve _ _ _).2.1, hobs]
  · simp only
    rw [(writeBlock_preserve _ _ _).2.1, hobs]

lemma setTile_state (t : TCOD_Tileset) (c : Int) (buf : Nat → ColorRGBA)
    (h : 0 ≤ (tileResolve t c).1) :
    TCOD_tileset_get_charmap (TCOD_tileset_set_tile_ t c buf).2.1 c
        = (tileResolve t c).1 ∧
    readBlock (TCOD_tileset_set_tile_ t c buf).2.1 (tileResolve t c).1.toNat
        = (List.range t.tile_length).map buf ∧
    (TCOD_tileset_set_tile_ t c buf).2.1.observer_list = t.observer_list ∧
    (TCOD_tileset_set_tile_ t c buf).2.1.tile_length = t.tile_length ∧
    (TCOD_tileset_set_tile_ t c buf).2.1.tiles_count
        = (tileResolve t c).2.tiles_count := by
  obtain ⟨hg, hlen, hobs⟩ := resolve_spec t c h
  obtain ⟨hst, _, _⟩ := setTile_spec t c buf h
  rw [hst]
  refine ⟨?_, ?_, ?_, ?_, ?_⟩
  · rw [get_charmap_writeBlock]; exact hg
  · rw [readBlock_writeBlock, hlen]
  · rw [(writeBlock_preserve _ _ _).2.1, hobs]
  · rw [(writeBlock_preserve _ _ _).2.2.1, hlen]
  · rw [(writeBlock_preserve _ _ _).2.2.2.1]

/-! Claim theorems. -/

set_option maxRecDepth 100000

/-- C4: with no attached observers, a successful call to
`TCOD_tileset_set_tile_` followed immediately by `TCOD_tileset_get_tile_`
on the same codepoint succeeds and fills the output with a block equal to
the written buffer (`tile_length` pixels), whether the codepoint was
previously mapped or unmapped. -/
theorem claim_C4 (t : TCOD_Tileset) (c : Int) (buf : Nat → ColorRGBA)
    (_hobs : t.observer_list = [])
    (hok : (TCOD_tileset_set_tile_ t c buf).1 = 0) :
    (TCOD_tileset_get_tile_ (TCOD_tileset_set_tile_ t c buf).2.1 c).1 = 0 ∧
    (TCOD_tileset_get_tile_ (TCOD_tileset_set_tile_ t c buf).2.1 c).2
      = some ((List.range t.tile_length).map buf) := by
  have hres : 0 ≤ (tileResolve t c).1 := by
    by_contra hneg
    have hfail : (TCOD_tileset_set_tile_ t c buf).1 = (tileResolve t c).1 := by
      simp only [TCOD_tileset_set_tile_]
      rw [if_pos (by omega)]
    omega
  obtain ⟨hg, hrb, _, hlen, _⟩ := setTile_state t c buf hres
  simp only [TCOD_tileset_get_tile_]
  rw [hg, if_neg (by omega), hrb]
  exact ⟨rfl, rfl⟩

/-- C4 witness: writing codepoint 65 of a fresh 8×8 tileset (no observers)
succeeds, and reading it back returns exactly the written 64-pixel gray
block. -/
theorem claim_C4_witness :
    (TCOD_tileset_get_tile_
        (TCOD_tileset_set_tile_ (TCOD_tileset_new 8 8) 65 grayBuffer).2.1 65).1 = 0 ∧
    (TCOD_tileset_get_tile_
        (TCOD_tileset_set_tile_ (TCOD_tileset_new 8 8) 65 grayBuffer).2.1 65).2
      = some ((List.range 64).map grayBuffer) :=
  claim_C4 (TCOD_tileset_new 8 8) 65 grayBuffer rfl (by decide)

/-- C9: for any nonnegative codepoint, `TCOD_tileset_set_tile_` leaves the
tileset in the fully mutated state regardless of the status it returns: the
codepoint is mapped to a nonnegative tile id, that tile's pixel block has
been fully overwritten with the buffer, and the returned status is exactly
the observer-notification status — so a nonzero hook status is returned
without rolling back the write or the generated mapping. -/
theorem claim_C9 (t : TCOD_Tileset) (c : Int) (buf : Nat → ColorRGBA)
    (hc : 0 ≤ c) :
    0 ≤ TCOD_tileset_get_charmap (TCOD_tileset_set_tile_ t c buf).2.1 c ∧
    readBlock (TCOD_tileset_set_tile_ t c buf).2.1
        (TCOD_tileset_get_charmap (TCOD_tileset_set_tile_ t c buf).2.1 c).toNat
      = (List.range t.tile_length).map buf ∧
    (TCOD_tileset_set_tile_ t c buf).1
      = (notifyObservers (TCOD_tileset_set_tile_ t c buf).2.1.observer_list
          (TCOD_tileset_get_charmap (TCOD_tileset_set_tile_ t c buf).2.1 c) c).1 := by
  have hres := resolve_nonneg t c hc
  obtain ⟨hg, hrb, hobs, _, _⟩ := setTile_state t c buf hres
  obtain ⟨_, hstat, _⟩ := setTile_spec t c buf hres
  rw [hg, hobs]
  exact ⟨hres, hrb, hstat⟩

/-- C9 witness: the mutation-persists property instantiated on a concrete
1×1 tileset whose single observer hook rejects the change with status 7. -/
theorem claim_C9_witness :
    0 ≤ TCOD_tileset_get_charmap
        (TCOD_tileset_set_tile_
          (TCOD_tileset_observer_new (TCOD_tileset_new 1 1)
            ⟨1, some fun _ _ => 7, false⟩) 5 grayBuffer).2.1 5 ∧
    readBlock
        (TCOD_tileset_set_tile_
          (TCOD_tileset_observer_new (TCOD_tileset_new 1 1)
            ⟨1, some fun _ _ => 7, false⟩) 5 grayBuffer).2.1
        (TCOD_tileset_get_charmap
          (TCOD_tileset_set_tile_
            (TCOD_tileset_observer_new (TCOD_tileset_new 1 1)
              ⟨1, some fun _ _ => 7, false⟩) 5 grayBuffer).2.1 5).toNat
      = (List.range 1).map grayBuffer ∧
    (TCOD_tileset_set_tile_
        (TCOD_tileset_observer_new (TCOD_tileset_new 1 1)
          ⟨1, some fun _ _ => 7, false⟩) 5 grayBuffer).1
      = (notifyObservers
          (TCOD_tileset_set_tile_
            (TCOD_tileset_observer_new (TCOD_tileset_new 1 1)
              ⟨1, some fun _ _ => 7, false⟩) 5 grayBuffer).2.1.observer_list
          (TCOD_tileset_get_charmap
            (TCOD_tileset_set_tile_
              (TCOD_tileset_observer_new (TCOD_tileset_new 1 1)
                ⟨1, some fun _ _ => 7, false⟩) 5 grayBuffer).2.1 5) 5).1 :=
  claim_C9
    (TCOD_tileset_observer_new (TCOD_tileset_new 1 1)
      ⟨1, some fun _ _ => 7, false⟩) 5 grayBuffer (by decide)

/-- C10: an in-range codepoint whose charmap entry is the default `0` is not
reported as missing by `TCOD_tileset_get_tile_`: the read returns status 0
and copies the blank tile id 0's block, exactly as for a codepoint
explicitly mapped to tile 0 — the two are indistinguishable to readers. -/
theorem claim_C10 (t : TCOD_Tileset) (c : Int) (h0 : 0 ≤ c)
    (hlt : c < (t.character_map.length : Int))
    (hz : t.character_map.getD c.toNat 0 = 0) :
    (TCOD_tileset_get_tile_ t c).1 = 0 ∧
    (TCOD_tileset_get_tile_ t c).2 = some (readBlock t 0) := by
  have hg : TCOD_tileset_get_charmap t c = 0 := by
    rw [get_charmap_eq t c h0 hlt, hz]
  simp only [TCOD_tileset_get_tile_]
  rw [hg, if_neg (by omega)]
  exact ⟨rfl, rfl⟩

/-- C10 witness: in `exampleT1` codepoint 9 is in range (the charmap grew to
256 entries) but was never assigned, and reading it succeeds with the blank
tile 0 block. -/
theorem claim_C10_witness :
    (TCOD_tileset_get_tile_ exampleT1 9).1 = 0 ∧
    (TCOD_tileset_get_tile_ exampleT1 9).2 = some (readBlock exampleT1 0) :=
  claim_C10 exampleT1 9 (by decide) (by decide) (by decide)

/-- C1 counterexample: starting from a 1×1 tileset with `tiles_count = 2`
(`exampleT1`), explicitly assigning codepoint 3 to tile id 0 succeeds, yet
the subsequent `TCOD_tileset_set_tile_ _ 3` does not allocate a fresh tile
id: `tiles_count` stays 2, codepoint 3 stays mapped to 0, and the buffer is
written into tile id 0's block — contradicting the claim that the write
path regenerates a codepoint mapped to 0. -/
theorem claim_C1_cex :
    (TCOD_tileset_assign_charmap exampleT1 3 0).1 = 0 ∧
    exampleT1.tiles_count = 2 ∧
    exampleT3.tiles_count = 2 ∧
    TCOD_tileset_get_charmap exampleT3 3 = 0 ∧
    readBlock exampleT3 0 = [⟨9, 9, 9, 9⟩] := by decide

/-- C1 amended: for an in-range codepoint explicitly mapped to tile id 0 on
a tileset with at least one tile, `TCOD_tileset_set_tile_` does not call the
generation path at all: it writes the buffer into tile id 0, leaving
`tiles_count` and the mapping unchanged.  The regeneration quirk belongs to
`TCOD_tileset_generate_charmap` itself, which, applied directly to such a
codepoint, allocates the fresh tile id `tiles_count` and increments the
count — but `TCOD_tileset_set_tile_` reaches it only when the charmap
lookup fails. -/
theorem claim_C1_amended (t : TCOD_Tileset) (c : Int) (buf : Nat → ColorRGBA)
    (hcount : 1 ≤ t.tiles_count) (h0 : 0 ≤ c)
    (hlt : c < (t.character_map.length : Int))
    (hz : t.character_map.getD c.toNat 0 = 0) :
    (TCOD_tileset_set_tile_ t c buf).2.1.tiles_count = t.tiles_count ∧
    TCOD_tileset_get_charmap (TCOD_tileset_set_tile_ t c buf).2.1 c = 0 ∧
    readBlock (TCOD_tileset_set_tile_ t c buf).2.1 0
      = (List.range t.tile_length).map buf ∧
    (TCOD_tileset_generate_charmap t c).1 = (t.tiles_count : Int) ∧
    (TCOD_tileset_generate_charmap t c).2.tiles_count = t.tiles_count + 1 := by
  have hg : TCOD_tileset_get_charmap t c = 0 := by
    rw [get_charmap_eq t c h0 hlt, hz]
  have hres : tileResolve t c = (0, t) := by
    simp only [tileResolve]
    rw [hg]
    simp
  have h0r : 0 ≤ (tileResolve t c).1 := by rw [hres]
  obtain ⟨hgc, hrb, _, _, hcnt⟩ := setTile_state t c buf h0r
  obtain ⟨hgen1, hgen2, _, _, _, _, _⟩ := generate_success t c h0 (by omega)
  refine ⟨?_, ?_, ?_, ?_, ?_⟩
  · rw [hcnt, hres]
  · rw [hgc, hres]
  · rw [hres] at hrb
    exact hrb
  · rw [hgen1, if_neg (by omega)]
  · rw [hgen2, if_neg (by omega)]

/-- C1 amended witness: the amended statement instantiated on `exampleT2`
(codepoint 3 explicitly mapped to tile 0, `tiles_count = 2`). -/
theorem claim_C1_amended_witness :
    (TCOD_tileset_set_tile_ exampleT2 3 grayBuffer).2.1.tiles_count
        = exampleT2.tiles_count ∧
    TCOD_tileset_get_charmap (TCOD_tileset_set_tile_ exampleT2 3 grayBuffer).2.1 3
        = 0 ∧
    readBlock (TCOD_tileset_set_tile_ exampleT2 3 grayBuffer).2.1 0
        = (List.range exampleT2.tile_length).map grayBuffer ∧
    (TCOD_tileset_generate_charmap exampleT2 3).1 = (exampleT2.tiles_count : Int) ∧
    (TCOD_tileset_generate_charmap exampleT2 3).2.tiles_count
        = exampleT2.tiles_count + 1 :=
  claim_C1_amended exampleT2 3 grayBuffer (by decide) (by decide) (by decide)
    (by decide)

/-- C2 counterexample: `create(8,8)` then `set_tile(65, gray)` with every
pixel `{128,128,128,255}` stores the gray block unchanged; the stored pixels
are not `{255,255,255,128}` — there is no grayscale-to-white-with-alpha
conversion on the write path. -/
theorem claim_C2_cex :
    (TCOD_tileset_get_tile_
        (TCOD_tileset_set_tile_ (TCOD_tileset_new 8 8) 65 grayBuffer).2.1 65).2
      = some (List.replicate 64 ⟨128, 128, 128, 255⟩) ∧
    (⟨128, 128, 128, 255⟩ : ColorRGBA) ≠ ⟨255, 255, 255, 128⟩ := by decide

/-- C2 amended: for a tileset created with `create(8,8)`, `set_tile(65,
block)` where every pixel of `block` is `{128,128,128,255}` succeeds and
stores the block unchanged — every stored pixel equals `{128,128,128,255}`.
The grayscale-to-white-with-alpha conversion happens only in the atlas
loader, not on the write path. -/
theorem claim_C2_amended :
    (TCOD_tileset_set_tile_ (TCOD_tileset_new 8 8) 65 grayBuffer).1 = 0 ∧
    (TCOD_tileset_get_tile_
        (TCOD_tileset_set_tile_ (TCOD_tileset_new 8 8) 65 grayBuffer).2.1 65).2
      = some (List.replicate 64 ⟨128, 128, 128, 255⟩) := by decide

/-- C5: attaching observer `o1` and then `o2` puts `o2` at the head of the
registry (LIFO), so `TCOD_tileset_set_tile_` invokes `o2`'s change hook
first; when that hook returns a nonzero status `e`, iteration stops
immediately — `o1` is never invoked (the invoked-observer list is exactly
`[o2.id]`) — and `e` is returned from `TCOD_tileset_set_tile_`.  Hooks
already invoked are not rolled back: the invocation record stands. -/
theorem claim_C5 (t : TCOD_Tileset) (o1 o2 : TCOD_TilesetObserver)
    (c e : Int) (buf : Nat → ColorRGBA) (f2 : Int → Int → Int)
    (h2 : o2.on_tileset_changed = some f2)
    (hf : ∀ tid, f2 tid c = e) (he : e ≠ 0) (hc : 0 ≤ c) :
    (TCOD_tileset_observer_new (TCOD_tileset_observer_new t o1) o2).observer_list
      = o2 :: o1 :: t.observer_list ∧
    (TCOD_tileset_set_tile_
        (TCOD_tileset_observer_new (TCOD_tileset_observer_new t o1) o2) c buf).1
      = e ∧
    (TCOD_tileset_set_tile_
        (TCOD_tileset_observer_new (TCOD_tileset_observer_new t o1) o2) c buf).2.2
      = [o2.id] := by
  set t2 := TCOD_tileset_observer_new (TCOD_tileset_observer_new t o1) o2
    with ht2
  have hl : t2.observer_list = o2 :: o1 :: t.observer_list := rfl
  have hnot : ∀ tid, notifyObservers t2.observer_list tid c = (e, [o2.id]) := by
    intro tid
    rw [hl]
    simp [notifyObservers, h2, hf, he]
  obtain ⟨_, hstat, hinv⟩ := setTile_spec t2 c buf (resolve_nonneg t2 c hc)
  refine ⟨hl, ?_, ?_⟩
  · rw [hstat, hnot]
  · rw [hinv, hnot]

/-- C5 witness: the LIFO early-exit scenario on a concrete 1×1 tileset with
two observers whose hooks return 7 and 0 respectively. -/
theorem claim_C5_witness :
    (TCOD_tileset_observer_new
        (TCOD_tileset_observer_new (TCOD_tileset_new 1 1)
          ⟨1, some fun _ _ => 0, false⟩)
        ⟨2, some fun _ _ => 7, false⟩).observer_list
      = ⟨2, some fun _ _ => 7, false⟩ :: ⟨1, some fun _ _ => 0, false⟩ :: [] ∧
    (TCOD_tileset_set_tile_
        (TCOD_tileset_observer_new
          (TCOD_tileset_observer_new (TCOD_tileset_new 1 1)
            ⟨1, some fun _ _ => 0, false⟩)
          ⟨2, some fun _ _ => 7, false⟩) 5 grayBuffer).1 = 7 ∧
    (TCOD_tileset_set_tile_
        (TCOD_tileset_observer_new
          (TCOD_tileset_observer_new (TCOD_tileset_new 1 1)
            ⟨1, some fun _ _ => 0, false⟩)
          ⟨2, some fun _ _ => 7, false⟩) 5 grayBuffer).2.2
      = [(⟨2, some fun _ _ => 7, false⟩ : TCOD_TilesetObserver).id] :=
  claim_C5 (TCOD_tileset_new 1 1) ⟨1, some fun _ _ => 0, false⟩
    ⟨2, some fun _ _ => 7, false⟩ 5 7 grayBuffer (fun _ _ => 7) rfl
    (fun _ => rfl) (by decide) (by decide)

/-- C6: a successful explicit assignment (`0 ≤ c`, `0 ≤ tid < tiles_count`)
returns the tile id and makes the lookup of `c` return `tid`; an assignment
to any other codepoint `c2 ≠ c` leaves the lookup of `c` unchanged; and the
charmap growth step triggered by a codepoint at or beyond the current
length strictly enlarges the map, preserves every previously stored entry,
and zero-fills all the new slots. -/
theorem claim_C6 (t t' : TCOD_Tileset) (c tid c2 tid2 : Int) (i j cp2 : Nat)
    (hc : 0 ≤ c) (h0 : 0 ≤ tid) (h1 : tid < (t.tiles_count : Int))
    (hc2 : c2 ≠ c)
    (ht' : TCOD_tileset_get_charmap t' c = tid)
    (hi : i < t.character_map.length)
    (hcp2 : t.character_map.length ≤ cp2)
    (hj : t.character_map.length ≤ j) :
    (TCOD_tileset_assign_charmap t c tid).1 = tid ∧
    TCOD_tileset_get_charmap (TCOD_tileset_assign_charmap t c tid).2 c = tid ∧
    TCOD_tileset_get_charmap (TCOD_tileset_assign_charmap t' c2 tid2).2 c = tid ∧
    (charmapGrown t.character_map cp2).getD i 0 = t.character_map.getD i 0 ∧
    t.character_map.length < (charmapGrown t.character_map cp2).length ∧
    (charmapGrown t.character_map cp2).getD j 0 = 0 := by
  obtain ⟨ha1, ha2⟩ := assign_success t c tid hc h0 h1
  refine ⟨ha1, ha2, assign_other t' c c2 tid tid2 ht' h0 hc2,
    charmapGrown_getD_lt _ _ _ hi, ?_, charmapGrown_getD_new _ _ _ hj (by omega)⟩
  have := charmapGrown_lt_length t.character_map cp2
  omega

/-- C6 witness: the charmap properties instantiated on concrete tilesets —
assign codepoint 1 to tile 2 on `exampleT4`, an unrelated assignment of
codepoint 0 on `exampleT5` (where codepoint 1 is mapped to tile 2), and
growth of a two-entry charmap to cover codepoint 5. -/
theorem claim_C6_witness :
    (TCOD_tileset_assign_charmap exampleT4 1 2).1 = 2 ∧
    TCOD_tileset_get_charmap (TCOD_tileset_assign_charmap exampleT4 1 2).2 1 = 2 ∧
    TCOD_tileset_get_charmap (TCOD_tileset_assign_charmap exampleT5 0 0).2 1 = 2 ∧
    (charmapGrown exampleT4.character_map 5).getD 0 0
      = exampleT4.character_map.getD 0 0 ∧
    exampleT4.character_map.length < (charmapGrown exampleT4.character_map 5).length ∧
    (charmapGrown exampleT4.character_map 5).getD 3 0 = 0 :=
  claim_C6 exampleT4 exampleT5 1 2 0 0 0 3 5 (by decide) (by decide) (by decide)
    (by decide) (by decide) (by decide) (by decide) (by decide)

/-- The events of the destruction teardown loop are exactly one
deletion-hook event per observer that has a deletion hook, in registry
order. -/
lemma teardown_filter (l : List TCOD_TilesetObserver) :
    teardownEvents l
      = (l.filter (fun o => o.on_observer_delete)).map
          (fun o => DeleteEvent.hookInvoked o.id) := by
  induction l with
  | nil => rfl
  | cons o rest ih =>
    simp only [teardownEvents, List.filter]
    cases h : o.on_observer_delete <;> simp [h, ih]

/-- Deleting the head observer of the registry — which is what each
iteration of the destruction loop does — unlinks exactly the head node and
yields its deletion-hook event; `teardownEvents` is therefore the fold of
`TCOD_tileset_observer_delete` over successive heads of the registry. -/
lemma observer_delete_head (t : TCOD_Tileset) (o : TCOD_TilesetObserver)
    (rest : List TCOD_TilesetObserver) (hl : t.observer_list = o :: rest) :
    TCOD_tileset_observer_delete t o.id
      = ({ t with observer_list := rest },
         if o.on_observer_delete then [DeleteEvent.hookInvoked o.id] else []) := by
  simp [TCOD_tileset_observer_delete, removeObserver, hl]

/-- C8: releasing a tileset whose `ref_count` is 2 only decrements the
count — the charmap, pixel arena, observer registry and geometry are left
exactly as they were (the result differs from the input in the `ref_count`
field alone) and no hook fires.  The release that brings the count to 0
frees the tileset, first invoking the deletion hook of every remaining
attached observer exactly once (in registry order), before the pixel arena
and the charmap are freed. -/
theorem claim_C8 (t : TCOD_Tileset) (h2 : t.ref_count = 2) :
    TCOD_tileset_delete t = (some { t with ref_count := 1 }, []) ∧
    TCOD_tileset_delete { t with ref_count := 1 }
      = (none,
          (t.observer_list.filter (fun o => o.on_observer_delete)).map
              (fun o => DeleteEvent.hookInvoked o.id)
            ++ [DeleteEvent.freedPixels, DeleteEvent.freedCharmap,
                DeleteEvent.freedTileset]) := by
  constructor
  · unfold TCOD_tileset_delete
    rw [if_pos (by omega), h2]
    norm_num
  · unfold TCOD_tileset_delete
    rw [if_neg (by simp)]
    rw [teardown_filter]

/-- C8 witness: the two-step release on `exampleT6` (two references, two
observers, one deletion hook). -/
theorem claim_C8_witness :
    TCOD_tileset_delete exampleT6 = (some { exampleT6 with ref_count := 1 }, []) ∧
    TCOD_tileset_delete { exampleT6 with ref_count := 1 }
      = (none,
          (exampleT6.observer_list.filter (fun o => o.on_observer_delete)).map
              (fun o => DeleteEvent.hookInvoked o.id)
            ++ [DeleteEvent.freedPixels, DeleteEvent.freedCharmap,
                DeleteEvent.freedTileset]) :=
  claim_C8 exampleT6 rfl

/-- C7 counterexample: loading a 2×2-pixel atlas as a 2×2 grid sets
`tiles_capacity` directly to `columns * rows = 4`, which is neither `0` nor
a multiple of 256 — so the capacity is not always of the form
`256 * 2 ^ k`, and this growth (0 to 4) is not a doubling from a floor of
256. -/
theorem claim_C7_cex :
    (TCOD_tileset_load smallColorFont 2 2 2 2 0 none).map
        (fun t => t.tiles_capacity) = some 4 ∧
    (4 : Nat) ≠ 0 ∧ (4 : Nat) % 256 ≠ 0 := by decide

/-- C7 amended: on the generation path (`TCOD_tileset_generate_charmap`,
reached from `TCOD_tileset_set_tile_`), arena growth does double
`tiles_capacity` from a floor of 256 — when the arena is full, the new
capacity is 256 if the old one was 0 and twice the old one otherwise — and
the freshly added region is zero-filled, so reading any freshly-grown,
never-written tile id returns all-zero pixels.  `TCOD_tileset_load`,
however, sets `tiles_capacity` directly to `columns * rows`, so the
capacity is not globally of the form `256 * 2 ^ k`. -/
theorem claim_C7_amended (t : TCOD_Tileset) (c : Int) (id : Nat)
    (hc : 0 ≤ c)
    (hfull : t.tiles_count = t.tiles_capacity)
    (hmap : TCOD_tileset_get_charmap t c ≤ 0)
    (hid1 : (TCOD_tileset_generate_charmap t c).2.tiles_count ≤ id)
    (hid2 : id < (TCOD_tileset_generate_charmap t c).2.tiles_capacity) :
    (TCOD_tileset_generate_charmap t c).2.tiles_capacity
      = (if t.tiles_capacity = 0 then 256 else t.tiles_capacity * 2) ∧
    t.tiles_capacity < (TCOD_tileset_generate_charmap t c).2.tiles_capacity ∧
    readBlock (TCOD_tileset_generate_charmap t c).2 id
      = List.replicate t.tile_length blankPixel := by
  obtain ⟨_, hcnt, _, hlen, _, hpix, hcap⟩ := generate_success t c hc hmap
  have hgrow : arenaGrown t
      = { t with
          tiles_capacity := if t.tiles_capacity = 0 then 256 else t.tiles_capacity * 2
          pixels := fun i =>
            if t.tiles_capacity * t.tile_length ≤ i ∧
                i < (if t.tiles_capacity = 0 then 256 else t.tiles_capacity * 2)
                      * t.tile_length
            then blankPixel else t.pixels i } := by
    unfold arenaGrown
    rw [if_pos hfull]
  have hcap2 : (TCOD_tileset_generate_charmap t c).2.tiles_capacity
      = (if t.tiles_capacity = 0 then 256 else t.tiles_capacity * 2) := by
    rw [hcap, hgrow]
  refine ⟨hcap2, by rw [hcap2]; split <;> omega, ?_⟩
  unfold readBlock
  rw [hlen, hpix, hgrow]
  simp only
  have hmono : ∀ a b : Nat, a ≤ b →
      t.tile_length * a ≤ t.tile_length * b := fun a b h =>
    Nat.mul_le_mul_left _ h
  calc (List.range t.tile_length).map
        (fun j =>
          if t.tiles_capacity * t.tile_length ≤ t.tile_length * id + j ∧
              t.tile_length * id + j <
                (if t.tiles_capacity = 0 then 256 else t.tiles_capacity * 2)
                  * t.tile_length
          then blankPixel else t.pixels (t.tile_length * id + j))
      = (List.range t.tile_length).map (fun _ => blankPixel) := by
        refine List.map_congr_left ?_
        intro j hj
        rw [List.mem_range] at hj
        rw [if_pos ?_]
        constructor
        · have e1 := hmono (t.tiles_capacity + 1) id (by
            rw [hcnt] at hid1
            split at hid1 <;> omega)
          rw [Nat.mul_add, Nat.mul_one] at e1
          have e3 : t.tiles_capacity * t.tile_length
              = t.tile_length * t.tiles_capacity := Nat.mul_comm _ _
          omega
        · have e2 := hmono (id + 1)
            (if t.tiles_capacity = 0 then 256 else t.tiles_capacity * 2) (by
              rw [hcap2] at hid2
              omega)
          rw [Nat.mul_add, Nat.mul_one] at e2
          have e4 : (if t.tiles_capacity = 0 then 256 else t.tiles_capacity * 2)
                * t.tile_length
              = t.tile_length
                * (if t.tiles_capacity = 0 then 256 else t.tiles_capacity * 2) :=
            Nat.mul_comm _ _
          omega
    _ = List.replicate t.tile_length blankPixel := by
        simp [List.map_const']

/-- C7 amended witness: generating a tile for codepoint 0 on a fresh 1×1
tileset grows the arena from capacity 0 to 256, and the freshly-grown,
never-written tile id 100 reads back as the all-zero block. -/
theorem claim_C7_amended_witness :
    (TCOD_tileset_generate_charmap (TCOD_tileset_new 1 1) 0).2.tiles_capacity
      = (if (TCOD_tileset_new 1 1).tiles_capacity = 0 then 256
          else (TCOD_tileset_new 1 1).tiles_capacity * 2) ∧
    (TCOD_tileset_new 1 1).tiles_capacity
      < (TCOD_tileset_generate_charmap (TCOD_tileset_new 1 1) 0).2.tiles_capacity ∧
    readBlock (TCOD_tileset_generate_charmap (TCOD_tileset_new 1 1) 0).2 100
      = List.replicate (TCOD_tileset_new 1 1).tile_length blankPixel :=
  claim_C7_amended (TCOD_tileset_new 1 1) 0 100 (by decide) (by decide)
    (by decide) (by decide) (by decide)

/-- The charmap assignment loop at the end of `TCOD_tileset_load` touches
only the charmap: the pixels and capacity of a successfully returned
tileset are those it started with. -/
lemma loadAssignLoop_pixels (charm : Option (List Int)) :
    ∀ (l : List Nat) (t t' : TCOD_Tileset),
      loadAssignLoop charm t l = some t' →
      t'.pixels = t.pixels ∧ t'.tiles_capacity = t.tiles_capacity := by
  intro l
  induction l with
  | nil =>
    intro t t' h
    simp only [loadAssignLoop] at h
    cases h
    exact ⟨rfl, rfl⟩
  | cons i rest ih =>
    intro t t' h
    simp only [loadAssignLoop] at h
    split at h
    · cases h
    · obtain ⟨hp, hcap⟩ := ih _ _ h
      refine ⟨hp.trans ?_, hcap.trans ?_⟩
      · exact (assign_preserve _ _ _).1
      · exact (assign_preserve _ _ _).2.2.1

/-- A successful `TCOD_tileset_load` returns a tileset whose pixel arena is
exactly `loadPixels` of the decoded image with the detected color key, and
whose capacity is the grid cell count. -/
lemma load_some_pixels (font : Nat → ColorRGBA)
    (fw fh columns rows n : Nat) (charm : Option (List Int))
    (t : TCOD_Tileset)
    (h : TCOD_tileset_load font fw fh columns rows n charm = some t) :
    t.pixels
      = loadPixels font fw columns (fw / columns) (fh / rows)
          (detectColorKey font fw (fw / columns) (fh / rows)) ∧
    t.tiles_capacity = columns * rows := by
  simp only [TCOD_tileset_load] at h
  obtain ⟨hp, hcap⟩ := loadAssignLoop_pixels charm _ _ _ h
  exact ⟨hp, hcap⟩

/-- Reading `loadPixels` back at the flat index of cell `i`, row `y`,
column `x` (with `x` and `y` in range) recovers the normalized pixel of
that cell position. -/
lemma loadPixels_at (font : Nat → ColorRGBA) (fw columns tw th : Nat)
    (key : Option ColorRGBA) (i y x : Nat) (hy : y < th) (hx : x < tw) :
    loadPixels font fw columns tw th key (i * (tw * th) + y * tw + x)
      = normalizeCellPixel
          (cellHasColor font (cellFontIndex i columns tw th fw) fw tw th)
          (cellHasAlpha font (cellFontIndex i columns tw th fw) fw tw th) key
          (font (cellFontIndex i columns tw th fw + y * fw + x)) := by
  have htw : 0 < tw := by omega
  have hth : 0 < th := by omega
  have hL : 0 < tw * th := Nat.mul_pos htw hth
  have hin : y * tw + x < tw * th := by
    have h1 : y + 1 ≤ th := hy
    have h2 : (y + 1) * tw ≤ th * tw := Nat.mul_le_mul_right _ h1
    rw [Nat.add_mul, Nat.one_mul] at h2
    have h3 : th * tw = tw * th := Nat.mul_comm _ _
    omega
  have hassoc : i * (tw * th) + y * tw + x = (y * tw + x) + i * (tw * th) := by
    omega
  have hdiv : (i * (tw * th) + y * tw + x) / (tw * th) = i := by
    rw [hassoc, Nat.add_mul_div_right _ _ hL, Nat.div_eq_of_lt hin]
    omega
  have hmod : (i * (tw * th) + y * tw + x) % (tw * th) = y * tw + x := by
    rw [hassoc, Nat.add_mul_mod_self_right, Nat.mod_eq_of_lt hin]
  have hdiv2 : (y * tw + x) / tw = y := by
    rw [Nat.add_comm, Nat.add_mul_div_right _ _ htw, Nat.div_eq_of_lt hx]
    omega
  have hmod2 : (y * tw + x) % tw = x := by
    rw [Nat.add_comm, Nat.add_mul_mod_self_right, Nat.mod_eq_of_lt hx]
  simp only [loadPixels]
  rw [hdiv, hmod, hdiv2, hmod2]

/-- C3 amended: after a successful atlas load, the stored pixel of every
cell position is obtained from the original pixel by first applying the
grayscale remap (when the cell had neither color nor alpha) and then
forcing the result to `{0,0,0,0}` exactly when that *post-normalization*
value equals the detected color key (the original uniform value of cell 0).
The key comparison is performed on the already-normalized pixel, not on the
original one, across all cells including cell 0. -/
theorem claim_C3_amended (font : Nat → ColorRGBA)
    (fw fh columns rows n : Nat) (charm : Option (List Int)) (i y x : Nat)
    (hsome : (TCOD_tileset_load font fw fh columns rows n charm).isSome = true)
    (_hi : i < columns * rows) (hy : y < fh / rows) (hx : x < fw / columns) :
    (TCOD_tileset_load font fw fh columns rows n charm).map
        (fun t => t.pixels
          (i * (fw / columns * (fh / rows)) + y * (fw / columns) + x))
      = some (normalizeCellPixel
          (cellHasColor font
            (cellFontIndex i columns (fw / columns) (fh / rows) fw)
            fw (fw / columns) (fh / rows))
          (cellHasAlpha font
            (cellFontIndex i columns (fw / columns) (fh / rows) fw)
            fw (fw / columns) (fh / rows))
          (detectColorKey font fw (fw / columns) (fh / rows))
          (font (cellFontIndex i columns (fw / columns) (fh / rows) fw
            + y * fw + x))) := by
  obtain ⟨t, ht⟩ := Option.isSome_iff_exists.mp hsome
  rw [ht]
  obtain ⟨hp, _⟩ := load_some_pixels font fw fh columns rows n charm t ht
  simp only [Option.map_some']
  rw [hp, loadPixels_at font fw columns (fw / columns) (fh / rows) _ i y x hy hx]

/-- C3 amended witness: the per-pixel load formula instantiated on the
uniform gray 2×1 image at cell 1. -/
theorem claim_C3_amended_witness :
    (TCOD_tileset_load uniformGrayFont 2 1 2 1 0 none).map
        (fun t => t.pixels
          (1 * (2 / 2 * (1 / 1)) + 0 * (2 / 2) + 0))
      = some (normalizeCellPixel
          (cellHasColor uniformGrayFont
            (cellFontIndex 1 2 (2 / 2) (1 / 1) 2) 2 (2 / 2) (1 / 1))
          (cellHasAlpha uniformGrayFont
            (cellFontIndex 1 2 (2 / 2) (1 / 1) 2) 2 (2 / 2) (1 / 1))
          (detectColorKey uniformGrayFont 2 (2 / 2) (1 / 1))
          (uniformGrayFont (cellFontIndex 1 2 (2 / 2) (1 / 1) 2
            + 0 * 2 + 0))) :=
  claim_C3_amended uniformGrayFont 2 1 2 1 0 none 1 0 0 (by decide) (by decide)
    (by decide) (by decide)

/-- C3 counterexample: loading the uniform opaque gray 2×1 image as a 2×1
grid detects the color key `{128,128,128,255}`; the pixel of cell 0
originally equals the key, yet after the load it is stored as
`{255,255,255,128}` — the grayscale normalization rewrote it before the key
comparison, so a pixel whose *original* value equals the key is not forced
to `{0,0,0,0}`. -/
theorem claim_C3_cex :
    detectColorKey uniformGrayFont 2 1 1 = some ⟨128, 128, 128, 255⟩ ∧
    uniformGrayFont 0 = ⟨128, 128, 128, 255⟩ ∧
    (TCOD_tileset_load uniformGrayFont 2 1 2 1 0 none).map (fun t => t.pixels 0)
      = some ⟨255, 255, 255, 128⟩ ∧
    (⟨255, 255, 255, 128⟩ : ColorRGBA) ≠ ⟨0, 0, 0, 0⟩ := by decide
